import Mathlib

/-!
Shallow embedding of the Tilt Runner motion and collision simulation core
(the `Ball` class and the `PhysicsEngine` class).  JavaScript numbers are
idealised as real numbers; `Math.sqrt` is `Real.sqrt`, `Math.abs` is `|·|`,
`Math.max`/`Math.min` are `max`/`min`.  Methods that mutate `this` become
functions `Ball → Ball`; methods that additionally fire a side-effect hook
(`onCollision`, the `goalReached` event) return the fired flag alongside the
new state.  The tunable physics constants are the ones fixed once in the
`Ball` constructor and never reassigned.
-/

namespace TiltRunner

/-- Arena bounds of the ball, `this.bounds` in the source. -/
structure Bounds where
  left : ℝ
  right : ℝ
  top : ℝ
  bottom : ℝ

/-- State of the `Ball` object: position, velocity, radius, bounds and the
boundary-collision flag.  DOM references and the start position are omitted:
no claim under verification reads them. -/
structure Ball where
  x : ℝ
  y : ℝ
  vx : ℝ
  vy : ℝ
  radius : ℝ
  bounds : Bounds
  isColliding : Bool

namespace Ball

/-- Constructor constant `this.friction = 0.95`. -/
def friction : ℝ := 0.95

/-- Constructor constant `this.bounce = 0.7`. -/
def bounce : ℝ := 0.7

/-- Constructor constant `this.maxSpeed = 8`. -/
def maxSpeed : ℝ := 8

/-- Constructor constant `this.acceleration = 0.3`. -/
def acceleration : ℝ := 0.3

/-- `Ball.applyForce(forceX, forceY)`: add `force * acceleration` to the
velocity, then if the speed exceeds `maxSpeed` rescale the velocity vector to
`maxSpeed`. -/
noncomputable def applyForce (b : Ball) (forceX forceY : ℝ) : Ball :=
  let vx := b.vx + forceX * acceleration
  let vy := b.vy + forceY * acceleration
  let speed := Real.sqrt (vx * vx + vy * vy)
  if speed > maxSpeed then
    { b with vx := vx / speed * maxSpeed, vy := vy / speed * maxSpeed }
  else
    { b with vx := vx, vy := vy }

/-- `Ball.checkBoundaryCollisions()`: clamp the position to each of the four
edges in source order (left, right, top, bottom), flipping and scaling the
relevant velocity component by `bounce` at each violated edge.  The returned
flag records whether the `onCollision` hook fired, i.e. whether
`collided && !this.isColliding` held; the stored `isColliding` becomes
`collided`. -/
noncomputable def checkBoundaryCollisions (b : Ball) : Ball × Bool :=
  let p1 : Ball × Bool :=
    if b.x < b.bounds.left then
      ({ b with x := b.bounds.left, vx := -b.vx * bounce }, true)
    else (b, false)
  let p2 : Ball × Bool :=
    if p1.1.x > p1.1.bounds.right then
      ({ p1.1 with x := p1.1.bounds.right, vx := -p1.1.vx * bounce }, true)
    else p1
  let p3 : Ball × Bool :=
    if p2.1.y < p2.1.bounds.top then
      ({ p2.1 with y := p2.1.bounds.top, vy := -p2.1.vy * bounce }, true)
    else p2
  let p4 : Ball × Bool :=
    if p3.1.y > p3.1.bounds.bottom then
      ({ p3.1 with y := p3.1.bounds.bottom, vy := -p3.1.vy * bounce }, true)
    else p3
  ({ p4.1 with isColliding := p4.2 }, p4.2 && !b.isColliding)

/-- `Ball.update()`: friction, then position integration, then the boundary
check, then snapping each velocity component with `|v| < 0.1` to `0`.  The
flag of `checkBoundaryCollisions` (whether `onCollision` fired) is passed
through. -/
noncomputable def update (b : Ball) : Ball × Bool :=
  let b1 : Ball := { b with vx := b.vx * friction, vy := b.vy * friction }
  let b2 : Ball := { b1 with x := b1.x + b1.vx, y := b1.y + b1.vy }
  let r := b2.checkBoundaryCollisions
  let b3 := r.1
  (({ b3 with vx := if |b3.vx| < 0.1 then 0 else b3.vx,
              vy := if |b3.vy| < 0.1 then 0 else b3.vy }), r.2)

end Ball

/-- An obstacle rectangle as built by `PhysicsEngine.updateObstacles`
(`moveDirection` is generated but never read by the simulation, so it is
omitted). -/
structure Obstacle where
  x : ℝ
  y : ℝ
  width : ℝ
  height : ℝ
  originalX : ℝ
  originalY : ℝ
  moveSpeed : ℝ
  moveRadius : ℝ

/-- The goal circle as built by `PhysicsEngine.updateGoal`. -/
structure Goal where
  x : ℝ
  y : ℝ
  radius : ℝ

namespace Ball

/-- `Ball.checkObstacleCollision(obstacle)`: circle versus axis-aligned
rectangle via the clamped closest point.  The method only reads `this`, so
the returned state component is the unchanged input. -/
noncomputable def checkObstacleCollision (b : Ball) (o : Obstacle) : Bool × Ball :=
  let dx := b.x - max o.x (min b.x (o.x + o.width))
  let dy := b.y - max o.y (min b.y (o.y + o.height))
  (if dx * dx + dy * dy < b.radius * b.radius then true else false, b)

/-- `Ball.checkGoalCollision(goal)`: center-to-center distance strictly below
the radius sum.  The method only reads `this`, so the returned state
component is the unchanged input. -/
noncomputable def checkGoalCollision (b : Ball) (g : Goal) : Bool × Ball :=
  let dx := b.x - g.x
  let dy := b.y - g.y
  let distance := Real.sqrt (dx * dx + dy * dy)
  (if distance < b.radius + g.radius then true else false, b)

/-- `Ball.handleObstacleCollision(obstacle)`: when the obstacle-center to
ball-center vector is nonzero, set the velocity to that direction scaled to
`0.8 * maxSpeed` and push the ball outside the obstacle; otherwise leave the
kinematic state alone.  The unconditional `onCollision` call at the end only
performs visual and haptic effects and touches no field. -/
noncomputable def handleObstacleCollision (b : Ball) (o : Obstacle) : Ball :=
  let centerX := o.x + o.width / 2
  let centerY := o.y + o.height / 2
  let dx := b.x - centerX
  let dy := b.y - centerY
  let distance := Real.sqrt (dx * dx + dy * dy)
  if distance > 0 then
    let normalX := dx / distance
    let normalY := dy / distance
    { b with
      vx := normalX * maxSpeed * 0.8,
      vy := normalY * maxSpeed * 0.8,
      x := centerX + normalX * (b.radius + max o.width o.height / 2 + 5),
      y := centerY + normalY * (b.radius + max o.width o.height / 2 + 5) }
  else b

/-- The boundary-violation condition of `checkBoundaryCollisions`: some edge
test of the four sequential `if`s fires on this state. -/
def violatesBounds (b : Ball) : Prop :=
  b.x < b.bounds.left ∨ b.x > b.bounds.right ∨ b.y < b.bounds.top ∨ b.y > b.bounds.bottom

end Ball

/-- State of the `PhysicsEngine`: running flag, gravity vector, the ball, the
goal and the obstacle list.  Wall-clock bookkeeping (`lastTime`,
`deltaTime`) is computed but never read by the simulation, so it is
omitted; the wall-clock instant itself is passed to `tick` as a
parameter. -/
structure Engine where
  isRunning : Bool
  gravityX : ℝ
  gravityY : ℝ
  ball : Option Ball
  goal : Option Goal
  obstacles : List Obstacle

namespace Engine

/-- `PhysicsEngine.start()`: sets the running flag (the recorded time
baseline is bookkeeping only). -/
def start (e : Engine) : Engine := { e with isRunning := true }

/-- `PhysicsEngine.stop()`: clears the running flag. -/
def stop (e : Engine) : Engine := { e with isRunning := false }

/-- One obstacle step of `PhysicsEngine.updateMovingObstacles` at wall-clock
time `t` (seconds): a phase-locked oscillation around the original
origin. -/
noncomputable def updateMovingObstacle (t : ℝ) (o : Obstacle) : Obstacle :=
  let offsetX := Real.sin (t * o.moveSpeed) * o.moveRadius
  let offsetY := Real.cos (t * o.moveSpeed * 0.7) * o.moveRadius * 0.5
  { o with x := o.originalX + offsetX, y := o.originalY + offsetY }

/-- `PhysicsEngine.checkCollisions()`: resolve the ball against every
obstacle in order, then test the goal; the returned flag records whether the
`goalReached` event was dispatched.  No field of the engine other than the
ball is written — in particular `isRunning` is not. -/
noncomputable def checkCollisions (e : Engine) : Engine × Bool :=
  match e.ball with
  | none => (e, false)
  | some b =>
    let b1 := e.obstacles.foldl
      (fun bb o => if (bb.checkObstacleCollision o).1 then bb.handleObstacleCollision o else bb) b
    let e1 := { e with ball := some b1 }
    match e.goal with
    | none => (e1, false)
    | some g => (e1, (b1.checkGoalCollision g).1)

/-- One body of `PhysicsEngine.update()` at wall-clock time `t`: when
running, move the obstacles, apply gravity to the ball, update the ball and
check collisions; when stopped, do nothing.  The flag records whether
`goalReached` was dispatched during this tick.  The source reschedules
itself via `requestAnimationFrame` unconditionally at the end, and nothing
in the tick writes `isRunning`. -/
noncomputable def tick (e : Engine) (t : ℝ) : Engine × Bool :=
  if e.isRunning then
    let e1 := { e with obstacles := e.obstacles.map (updateMovingObstacle t) }
    match e1.ball with
    | none => (e1, false)
    | some b =>
      let b1 := b.applyForce e.gravityX e.gravityY
      let b2 := b1.update
      let e2 := { e1 with ball := some b2.1 }
      e2.checkCollisions
  else (e, false)

end Engine

/-! ### Concrete instances used as witness and counterexample inputs -/

/-- Concrete overspeed ball: velocity `(6, 8)` of speed `10 > maxSpeed`. -/
def overBall : Ball := ⟨0, 0, 6, 8, 12, ⟨0, 400, 0, 200⟩, false⟩

/-- Concrete ball far outside its bounds. -/
def wildBall : Ball := ⟨1000, -500, 3, -4, 12, ⟨12, 388, 12, 188⟩, true⟩

/-- Obstacle whose rectangle center is `(30, 50)`. -/
def centerObstacle : Obstacle := ⟨10, 20, 40, 60, 10, 20, 1, 15⟩

/-- Ball sitting exactly on the center of `centerObstacle`. -/
def centeredBall : Ball := ⟨30, 50, 2, -3, 12, ⟨12, 388, 12, 188⟩, false⟩

/-- Goal circle of radius `9` at the origin. -/
def originGoal : Goal := ⟨0, 0, 9⟩

/-- Ball of radius `12` at distance `20 = 12 + 9 - 1` from `originGoal`. -/
def nearGoalBall : Ball := ⟨16, 12, 0, 0, 12, ⟨12, 388, 12, 188⟩, false⟩

/-- Interior resting ball. -/
def restingBall : Ball := ⟨100, 100, 0, 0, 12, ⟨12, 388, 12, 188⟩, false⟩

/-- Ball with velocity `(6, 15)`: applying the force `(0, -70/3)` once brings
the velocity to `(6, 8)` of speed `10`, so the intermediate clamp fires. -/
def fastBall : Ball := ⟨0, 0, 6, 15, 12, ⟨12, 388, 12, 188⟩, false⟩

/-- Resting ball sitting exactly on the goal center, inside its bounds. -/
def goalBall : Ball := ⟨50, 50, 0, 0, 12, ⟨12, 388, 12, 188⟩, false⟩

/-- Goal circle centered where `goalBall` sits. -/
def centerGoal : Goal := ⟨50, 50, 25⟩

/-- Running engine whose ball already touches the goal. -/
def goalEngine : Engine := ⟨true, 0, 0, some goalBall, some centerGoal, []⟩

/-- Stopped engine. -/
def stoppedEngine : Engine := ⟨false, 0, 0, none, none, []⟩

/-! ### Helper lemmas about `applyForce` -/

/-- When the post-addition speed does not exceed `maxSpeed`, `applyForce` is
plain velocity addition. -/
lemma applyForce_of_speed_le (b : Ball) (fx fy : ℝ)
    (h : Real.sqrt ((b.vx + fx * Ball.acceleration) * (b.vx + fx * Ball.acceleration)
        + (b.vy + fy * Ball.acceleration) * (b.vy + fy * Ball.acceleration)) ≤ Ball.maxSpeed) :
    b.applyForce fx fy
      = { b with vx := b.vx + fx * Ball.acceleration, vy := b.vy + fy * Ball.acceleration } := by
  simp only [Ball.applyForce]
  rw [if_neg (not_lt.mpr h)]

/-- When the post-addition speed exceeds `maxSpeed`, `applyForce` rescales the
post-addition velocity by `maxSpeed / speed`. -/
lemma applyForce_of_speed_gt (b : Ball) (fx fy : ℝ)
    (h : Ball.maxSpeed < Real.sqrt ((b.vx + fx * Ball.acceleration) * (b.vx + fx * Ball.acceleration)
        + (b.vy + fy * Ball.acceleration) * (b.vy + fy * Ball.acceleration))) :
    b.applyForce fx fy
      = { b with
          vx := (b.vx + fx * Ball.acceleration)
              / Real.sqrt ((b.vx + fx * Ball.acceleration) * (b.vx + fx * Ball.acceleration)
                  + (b.vy + fy * Ball.acceleration) * (b.vy + fy * Ball.acceleration))
              * Ball.maxSpeed,
          vy := (b.vy + fy * Ball.acceleration)
              / Real.sqrt ((b.vx + fx * Ball.acceleration) * (b.vx + fx * Ball.acceleration)
                  + (b.vy + fy * Ball.acceleration) * (b.vy + fy * Ball.acceleration))
              * Ball.maxSpeed } := by
  simp only [Ball.applyForce]
  rw [if_pos h]

/-- Rescaling a vector of norm `s > maxSpeed` by `maxSpeed / s` yields a
vector of norm exactly `maxSpeed`. -/
lemma rescaled_norm_eq (wx wy : ℝ)
    (h : Ball.maxSpeed < Real.sqrt (wx * wx + wy * wy)) :
    Real.sqrt ((wx / Real.sqrt (wx * wx + wy * wy) * Ball.maxSpeed)
          * (wx / Real.sqrt (wx * wx + wy * wy) * Ball.maxSpeed)
        + (wy / Real.sqrt (wx * wx + wy * wy) * Ball.maxSpeed)
          * (wy / Real.sqrt (wx * wx + wy * wy) * Ball.maxSpeed)) = Ball.maxSpeed := by
  have hms : (0 : ℝ) < Ball.maxSpeed := by norm_num [Ball.maxSpeed]
  have hs : (0 : ℝ) < Real.sqrt (wx * wx + wy * wy) := hms.trans h
  have hnn : (0 : ℝ) ≤ wx * wx + wy * wy :=
    add_nonneg (mul_self_nonneg wx) (mul_self_nonneg wy)
  have hsq : Real.sqrt (wx * wx + wy * wy) * Real.sqrt (wx * wx + wy * wy)
      = wx * wx + wy * wy := Real.mul_self_sqrt hnn
  have harg : (wx / Real.sqrt (wx * wx + wy * wy) * Ball.maxSpeed)
          * (wx / Real.sqrt (wx * wx + wy * wy) * Ball.maxSpeed)
        + (wy / Real.sqrt (wx * wx + wy * wy) * Ball.maxSpeed)
          * (wy / Real.sqrt (wx * wx + wy * wy) * Ball.maxSpeed)
      = Ball.maxSpeed ^ 2 := by
    have hpos : (0 : ℝ) < wx * wx + wy * wy := by
      rw [← hsq]; exact mul_pos hs hs
    field_simp
    ring
  rw [harg, Real.sqrt_sq hms.le]

/-- C2: for every ball state and every force input, the speed
`sqrt (vx² + vy²)` immediately after `Ball.applyForce` is at most
`maxSpeed`. -/
theorem applyForce_speed_le_maxSpeed (b : Ball) (fx fy : ℝ) :
    Real.sqrt ((b.applyForce fx fy).vx * (b.applyForce fx fy).vx
      + (b.applyForce fx fy).vy * (b.applyForce fx fy).vy) ≤ Ball.maxSpeed := by
  by_cases h : Ball.maxSpeed < Real.sqrt ((b.vx + fx * Ball.acceleration) * (b.vx + fx * Ball.acceleration)
      + (b.vy + fy * Ball.acceleration) * (b.vy + fy * Ball.acceleration))
  · rw [applyForce_of_speed_gt b fx fy h]
    exact le_of_eq (rescaled_norm_eq _ _ h)
  · rw [applyForce_of_speed_le b fx fy (not_lt.mp h)]
    exact not_lt.mp h

/-- C9: the clamp in `applyForce` acts on the whole post-addition velocity:
whenever the velocity after adding `force * acceleration` has speed above
`maxSpeed` (including zero force on an already-overspeed velocity), the
result is that vector rescaled by `maxSpeed / speed`, its speed is exactly
`maxSpeed`, and it is a positive multiple of the pre-clamp velocity (same
direction). -/
theorem applyForce_clamps_whole_velocity (b : Ball) (fx fy : ℝ)
    (h : Ball.maxSpeed < Real.sqrt ((b.vx + fx * Ball.acceleration) * (b.vx + fx * Ball.acceleration)
        + (b.vy + fy * Ball.acceleration) * (b.vy + fy * Ball.acceleration))) :
    (b.applyForce fx fy).vx
        = (b.vx + fx * Ball.acceleration)
            / Real.sqrt ((b.vx + fx * Ball.acceleration) * (b.vx + fx * Ball.acceleration)
                + (b.vy + fy * Ball.acceleration) * (b.vy + fy * Ball.acceleration))
            * Ball.maxSpeed
    ∧ (b.applyForce fx fy).vy
        = (b.vy + fy * Ball.acceleration)
            / Real.sqrt ((b.vx + fx * Ball.acceleration) * (b.vx + fx * Ball.acceleration)
                + (b.vy + fy * Ball.acceleration) * (b.vy + fy * Ball.acceleration))
            * Ball.maxSpeed
    ∧ Real.sqrt ((b.applyForce fx fy).vx * (b.applyForce fx fy).vx
        + (b.applyForce fx fy).vy * (b.applyForce fx fy).vy) = Ball.maxSpeed
    ∧ ∃ c : ℝ, 0 < c
        ∧ (b.applyForce fx fy).vx = c * (b.vx + fx * Ball.acceleration)
        ∧ (b.applyForce fx fy).vy = c * (b.vy + fy * Ball.acceleration) := by
  have hms : (0 : ℝ) < Ball.maxSpeed := by norm_num [Ball.maxSpeed]
  have hs : (0 : ℝ) < Real.sqrt ((b.vx + fx * Ball.acceleration) * (b.vx + fx * Ball.acceleration)
      + (b.vy + fy * Ball.acceleration) * (b.vy + fy * Ball.acceleration)) := hms.trans h
  rw [applyForce_of_speed_gt b fx fy h]
  refine ⟨rfl, rfl, rescaled_norm_eq _ _ h, ?_⟩
  refine ⟨Ball.maxSpeed / Real.sqrt ((b.vx + fx * Ball.acceleration) * (b.vx + fx * Ball.acceleration)
      + (b.vy + fy * Ball.acceleration) * (b.vy + fy * Ball.acceleration)), ?_, by ring, by ring⟩
  positivity

/-- Witness for C9: the overspeed ball with zero force satisfies the
hypothesis and the conclusion at a concrete input. -/
theorem applyForce_clamps_whole_velocity_witness :
    ∃ c : ℝ, 0 < c
      ∧ (overBall.applyForce 0 0).vx = c * (overBall.vx + 0 * Ball.acceleration)
      ∧ (overBall.applyForce 0 0).vy = c * (overBall.vy + 0 * Ball.acceleration) := by
  refine (applyForce_clamps_whole_velocity overBall 0 0 ?_).2.2.2
  have : (overBall.vx + 0 * Ball.acceleration) * (overBall.vx + 0 * Ball.acceleration)
      + (overBall.vy + 0 * Ball.acceleration) * (overBall.vy + 0 * Ball.acceleration) = 10 ^ 2 := by
    norm_num [overBall, Ball.acceleration]
  rw [this, Real.sqrt_sq (by norm_num : (0:ℝ) ≤ 10)]
  norm_num [Ball.maxSpeed]

/-! ### Boundary containment -/

/-- With well-formed bounds, `checkBoundaryCollisions` leaves the position
inside the bounds rectangle. -/
lemma checkBoundary_mem (b : Ball)
    (hlr : b.bounds.left ≤ b.bounds.right) (htb : b.bounds.top ≤ b.bounds.bottom) :
    b.bounds.left ≤ (b.checkBoundaryCollisions).1.x
    ∧ (b.checkBoundaryCollisions).1.x ≤ b.bounds.right
    ∧ b.bounds.top ≤ (b.checkBoundaryCollisions).1.y
    ∧ (b.checkBoundaryCollisions).1.y ≤ b.bounds.bottom := by
  simp only [Ball.checkBoundaryCollisions]
  split_ifs <;> simp_all

/-- C1: for every ball state with well-formed bounds
(`left ≤ right`, `top ≤ bottom`), the position after `Ball.update` lies in
`[left, right] × [top, bottom]`. -/
theorem update_position_within_bounds (b : Ball)
    (hlr : b.bounds.left ≤ b.bounds.right) (htb : b.bounds.top ≤ b.bounds.bottom) :
    b.bounds.left ≤ (b.update).1.x ∧ (b.update).1.x ≤ b.bounds.right
    ∧ b.bounds.top ≤ (b.update).1.y ∧ (b.update).1.y ≤ b.bounds.bottom := by
  simp only [Ball.update]
  exact checkBoundary_mem
    ⟨b.x + b.vx * Ball.friction, b.y + b.vy * Ball.friction, b.vx * Ball.friction,
      b.vy * Ball.friction, b.radius, b.bounds, b.isColliding⟩ hlr htb

/-- Witness for C1 at a concrete out-of-bounds ball. -/
theorem update_position_within_bounds_witness :
    wildBall.bounds.left ≤ (wildBall.update).1.x
    ∧ (wildBall.update).1.x ≤ wildBall.bounds.right
    ∧ wildBall.bounds.top ≤ (wildBall.update).1.y
    ∧ (wildBall.update).1.y ≤ wildBall.bounds.bottom :=
  update_position_within_bounds wildBall (by norm_num [wildBall]) (by norm_num [wildBall])

/-! ### Edge-triggered boundary collision hook -/

/-- Characterisation of `checkBoundaryCollisions`: the hook fires exactly on
a `false → true` transition of the violation condition, and the stored flag
becomes the violation condition of this call. -/
lemma checkBoundary_spec (b : Ball) :
    ((b.checkBoundaryCollisions).2 = true ↔ (b.violatesBounds ∧ b.isColliding = false))
    ∧ ((b.checkBoundaryCollisions).1.isColliding = true ↔ b.violatesBounds) := by
  simp only [Ball.checkBoundaryCollisions, Ball.violatesBounds]
  split_ifs <;> simp_all

/-- C5: per `Ball.update` tick, the `onCollision` hook fires exactly when an
edge is violated by the freshly integrated position while `isColliding` was
`false` (so it fires once at the start of a contiguous violation episode and
not on its later ticks), and the stored `isColliding` flag afterwards equals
the violation condition of this tick (so it returns to `false` on the first
tick without a violated edge). -/
theorem update_collision_edge_triggered (b : Ball) :
    ((b.update).2 = true ↔
      ((b.x + b.vx * Ball.friction < b.bounds.left
        ∨ b.x + b.vx * Ball.friction > b.bounds.right
        ∨ b.y + b.vy * Ball.friction < b.bounds.top
        ∨ b.y + b.vy * Ball.friction > b.bounds.bottom)
       ∧ b.isColliding = false))
    ∧ ((b.update).1.isColliding = true ↔
      (b.x + b.vx * Ball.friction < b.bounds.left
        ∨ b.x + b.vx * Ball.friction > b.bounds.right
        ∨ b.y + b.vy * Ball.friction < b.bounds.top
        ∨ b.y + b.vy * Ball.friction > b.bounds.bottom)) := by
  have h := checkBoundary_spec
    ⟨b.x + b.vx * Ball.friction, b.y + b.vy * Ball.friction, b.vx * Ball.friction,
      b.vy * Ball.friction, b.radius, b.bounds, b.isColliding⟩
  simpa only [Ball.update, Ball.violatesBounds] using h

/-! ### Obstacle and goal collision properties -/

/-- C6: when the ball center coincides exactly with the obstacle rectangle
center, `handleObstacleCollision` leaves position and velocity unchanged
(defined no-op on the kinematic state). -/
theorem handleObstacleCollision_center_noop (b : Ball) (o : Obstacle)
    (hx : b.x = o.x + o.width / 2) (hy : b.y = o.y + o.height / 2) :
    (b.handleObstacleCollision o).x = b.x ∧ (b.handleObstacleCollision o).y = b.y
    ∧ (b.handleObstacleCollision o).vx = b.vx ∧ (b.handleObstacleCollision o).vy = b.vy := by
  have hdx : b.x - (o.x + o.width / 2) = 0 := by rw [hx]; exact sub_self _
  have hdy : b.y - (o.y + o.height / 2) = 0 := by rw [hy]; exact sub_self _
  simp [Ball.handleObstacleCollision, hdx, hdy]

/-- Witness for C6 at a concrete coinciding ball and obstacle. -/
theorem handleObstacleCollision_center_noop_witness :
    (centeredBall.handleObstacleCollision centerObstacle).x = centeredBall.x
    ∧ (centeredBall.handleObstacleCollision centerObstacle).y = centeredBall.y
    ∧ (centeredBall.handleObstacleCollision centerObstacle).vx = centeredBall.vx
    ∧ (centeredBall.handleObstacleCollision centerObstacle).vy = centeredBall.vy :=
  handleObstacleCollision_center_noop centeredBall centerObstacle
    (by norm_num [centeredBall, centerObstacle])
    (by norm_num [centeredBall, centerObstacle])

/-- C7: `checkGoalCollision` is the strict comparison of center distance with
the radius sum: it is true iff the distance is strictly below
`radius + goal.radius`, in particular true when the distance equals
`radius + goal.radius - 1` and false when it equals exactly
`radius + goal.radius`. -/
theorem checkGoalCollision_strict (b : Ball) (g : Goal) :
    ((b.checkGoalCollision g).1 = true ↔
      Real.sqrt ((b.x - g.x) * (b.x - g.x) + (b.y - g.y) * (b.y - g.y)) < b.radius + g.radius)
    ∧ (Real.sqrt ((b.x - g.x) * (b.x - g.x) + (b.y - g.y) * (b.y - g.y))
          = b.radius + g.radius - 1
        → (b.checkGoalCollision g).1 = true)
    ∧ (Real.sqrt ((b.x - g.x) * (b.x - g.x) + (b.y - g.y) * (b.y - g.y))
          = b.radius + g.radius
        → (b.checkGoalCollision g).1 = false) := by
  refine ⟨?_, ?_, ?_⟩
  · by_cases h : Real.sqrt ((b.x - g.x) * (b.x - g.x) + (b.y - g.y) * (b.y - g.y))
        < b.radius + g.radius
    · simp [Ball.checkGoalCollision, h]
    · simp [Ball.checkGoalCollision, h]
  · intro hd
    have h0 : (0 : ℝ) ≤ b.radius + g.radius - 1 :=
      hd ▸ Real.sqrt_nonneg ((b.x - g.x) * (b.x - g.x) + (b.y - g.y) * (b.y - g.y))
    have hlt : Real.sqrt ((b.x - g.x) * (b.x - g.x) + (b.y - g.y) * (b.y - g.y))
        < b.radius + g.radius := by rw [hd]; linarith
    simp [Ball.checkGoalCollision, hlt]
  · intro hd
    have hnlt : ¬ Real.sqrt ((b.x - g.x) * (b.x - g.x) + (b.y - g.y) * (b.y - g.y))
        < b.radius + g.radius := by rw [hd]; exact lt_irrefl _
    simp [Ball.checkGoalCollision, hnlt]

/-- Witness for C7: at distance `radius + goal.radius - 1` the check is
true. -/
theorem checkGoalCollision_strict_witness :
    (nearGoalBall.checkGoalCollision originGoal).1 = true :=
  (checkGoalCollision_strict nearGoalBall originGoal).2.1 (by
    have h : (nearGoalBall.x - originGoal.x) * (nearGoalBall.x - originGoal.x)
        + (nearGoalBall.y - originGoal.y) * (nearGoalBall.y - originGoal.y) = 20 ^ 2 := by
      norm_num [nearGoalBall, originGoal]
    rw [h, Real.sqrt_sq (by norm_num : (0:ℝ) ≤ 20)]
    norm_num [nearGoalBall, originGoal])

/-- C10: the collision queries are pure: the state they return is the
unchanged input ball, for every ball, obstacle and goal. -/
theorem collision_queries_pure (b : Ball) (o : Obstacle) (g : Goal) :
    (b.checkObstacleCollision o).2 = b ∧ (b.checkGoalCollision g).2 = b :=
  ⟨rfl, rfl⟩

/-! ### The documented friction/integration scenario -/

/-- When no edge is violated, `checkBoundaryCollisions` only clears the
collision flag and fires nothing. -/
lemma checkBoundary_of_no_violation (b : Ball)
    (h1 : ¬ b.x < b.bounds.left) (h2 : ¬ b.x > b.bounds.right)
    (h3 : ¬ b.y < b.bounds.top) (h4 : ¬ b.y > b.bounds.bottom) :
    b.checkBoundaryCollisions = ({ b with isColliding := false }, false) := by
  simp only [Ball.checkBoundaryCollisions, if_neg h1, if_neg h2, if_neg h3, if_neg h4,
    Bool.false_and]

/-- On a tick whose integrated position violates no edge, `update` moves the
position by the frictioned velocity and applies only the micro-zero snap to
the velocity. -/
lemma update_of_no_violation (b : Ball)
    (h1 : b.bounds.left ≤ b.x + b.vx * Ball.friction)
    (h2 : b.x + b.vx * Ball.friction ≤ b.bounds.right)
    (h3 : b.bounds.top ≤ b.y + b.vy * Ball.friction)
    (h4 : b.y + b.vy * Ball.friction ≤ b.bounds.bottom) :
    (b.update).1.x = b.x + b.vx * Ball.friction
    ∧ (b.update).1.y = b.y + b.vy * Ball.friction
    ∧ (b.update).1.vx = (if |b.vx * Ball.friction| < 0.1 then 0 else b.vx * Ball.friction)
    ∧ (b.update).1.vy = (if |b.vy * Ball.friction| < 0.1 then 0 else b.vy * Ball.friction) := by
  have hc := checkBoundary_of_no_violation
    ⟨b.x + b.vx * Ball.friction, b.y + b.vy * Ball.friction, b.vx * Ball.friction,
      b.vy * Ball.friction, b.radius, b.bounds, b.isColliding⟩
    (not_lt.mpr h1) (not_lt.mpr h2) (not_lt.mpr h3) (not_lt.mpr h4)
  simp [Ball.update, hc]

/-- C8: from zero velocity at an interior position, `applyForce(1, 0)` with
`acceleration = 0.3` yields velocity `(0.3, 0)`; the following `update` with
`friction = 0.95` yields velocity `(0.285, 0)` and shifts the position by
exactly `0.285` in `x` and `0` in `y` (friction, then integration, then
boundary clamp, then micro-zeroing). -/
theorem scenario_force_then_update (b : Ball)
    (hvx : b.vx = 0) (hvy : b.vy = 0)
    (h1 : b.bounds.left ≤ b.x + 0.285) (h2 : b.x + 0.285 ≤ b.bounds.right)
    (h3 : b.bounds.top ≤ b.y) (h4 : b.y ≤ b.bounds.bottom) :
    (b.applyForce 1 0).vx = 0.3 ∧ (b.applyForce 1 0).vy = 0
    ∧ ((b.applyForce 1 0).update).1.vx = 0.285
    ∧ ((b.applyForce 1 0).update).1.vy = 0
    ∧ ((b.applyForce 1 0).update).1.x = b.x + 0.285
    ∧ ((b.applyForce 1 0).update).1.y = b.y := by
  have harg : (b.vx + 1 * Ball.acceleration) * (b.vx + 1 * Ball.acceleration)
      + (b.vy + 0 * Ball.acceleration) * (b.vy + 0 * Ball.acceleration) = 0.3 ^ 2 := by
    rw [hvx, hvy]; norm_num [Ball.acceleration]
  have hle : Real.sqrt ((b.vx + 1 * Ball.acceleration) * (b.vx + 1 * Ball.acceleration)
      + (b.vy + 0 * Ball.acceleration) * (b.vy + 0 * Ball.acceleration)) ≤ Ball.maxSpeed := by
    rw [harg, Real.sqrt_sq (by norm_num : (0:ℝ) ≤ 0.3)]
    norm_num [Ball.maxSpeed]
  have ha := applyForce_of_speed_le b 1 0 hle
  have havx : (b.applyForce 1 0).vx = 0.3 := by
    rw [ha]; show b.vx + 1 * Ball.acceleration = 0.3
    rw [hvx]; norm_num [Ball.acceleration]
  have havy : (b.applyForce 1 0).vy = 0 := by
    rw [ha]; show b.vy + 0 * Ball.acceleration = 0
    rw [hvy]; norm_num
  have hax : (b.applyForce 1 0).x = b.x := by rw [ha]
  have hay : (b.applyForce 1 0).y = b.y := by rw [ha]
  have hab : (b.applyForce 1 0).bounds = b.bounds := by rw [ha]
  have hu := update_of_no_violation (b.applyForce 1 0)
    (by rw [hab, hax, havx]; norm_num [Ball.friction]; linarith)
    (by rw [hab, hax, havx]; norm_num [Ball.friction]; linarith)
    (by rw [hab, hay, havy]; norm_num [Ball.friction]; linarith)
    (by rw [hab, hay, havy]; norm_num [Ball.friction]; linarith)
  have habs : |(0.3 : ℝ) * Ball.friction| = 0.285 := by
    rw [abs_of_nonneg (by norm_num [Ball.friction] : (0:ℝ) ≤ 0.3 * Ball.friction)]
    norm_num [Ball.friction]
  refine ⟨havx, havy, ?_, ?_, ?_, ?_⟩
  · rw [hu.2.2.1, havx, if_neg (by rw [habs]; norm_num)]
    norm_num [Ball.friction]
  · rw [hu.2.2.2, havy]; norm_num [Ball.friction]
  · rw [hu.1, hax, havx]; norm_num [Ball.friction]
  · rw [hu.2.1, hay, havy]; norm_num [Ball.friction]

/-- Witness for C8 at a concrete interior resting ball. -/
theorem scenario_force_then_update_witness :
    (restingBall.applyForce 1 0).vx = 0.3 ∧ (restingBall.applyForce 1 0).vy = 0
    ∧ ((restingBall.applyForce 1 0).update).1.vx = 0.285
    ∧ ((restingBall.applyForce 1 0).update).1.vy = 0
    ∧ ((restingBall.applyForce 1 0).update).1.x = restingBall.x + 0.285
    ∧ ((restingBall.applyForce 1 0).update).1.y = restingBall.y :=
  scenario_force_then_update restingBall (by norm_num [restingBall]) (by norm_num [restingBall])
    (by norm_num [restingBall]) (by norm_num [restingBall])
    (by norm_num [restingBall]) (by norm_num [restingBall])

/-! ### Double force application versus a single doubled force -/

/-- C4 (amended): applying a force twice agrees with applying the doubled
force once provided the speed after the first application does not exceed
`maxSpeed`, so that no intermediate clamp fires. -/
theorem applyForce_twice_eq_doubled (b : Ball) (fx fy : ℝ)
    (h : Real.sqrt ((b.vx + fx * Ball.acceleration) * (b.vx + fx * Ball.acceleration)
        + (b.vy + fy * Ball.acceleration) * (b.vy + fy * Ball.acceleration)) ≤ Ball.maxSpeed) :
    (b.applyForce fx fy).applyForce fx fy = b.applyForce (2 * fx) (2 * fy) := by
  rw [applyForce_of_speed_le b fx fy h]
  simp only [Ball.applyForce]
  have hv : b.vx + fx * Ball.acceleration + fx * Ball.acceleration
      = b.vx + 2 * fx * Ball.acceleration := by ring
  have hw : b.vy + fy * Ball.acceleration + fy * Ball.acceleration
      = b.vy + 2 * fy * Ball.acceleration := by ring
  rw [hv, hw]

/-- Witness for the amended C4 at a concrete sub-clamp input. -/
theorem applyForce_twice_eq_doubled_witness :
    (restingBall.applyForce 1 0).applyForce 1 0 = restingBall.applyForce (2 * 1) (2 * 0) :=
  applyForce_twice_eq_doubled restingBall 1 0 (by
    have e : (restingBall.vx + 1 * Ball.acceleration) * (restingBall.vx + 1 * Ball.acceleration)
        + (restingBall.vy + 0 * Ball.acceleration) * (restingBall.vy + 0 * Ball.acceleration)
        = 0.3 ^ 2 := by norm_num [restingBall, Ball.acceleration]
    rw [e, Real.sqrt_sq (by norm_num : (0:ℝ) ≤ 0.3)]
    norm_num [Ball.maxSpeed])

/-- Counterexample to C4 as stated: at velocity `(6, 15)` and force
`(0, -70/3)`, applying the force twice gives `vy = -3/5`, while applying the
doubled force once gives `vy = 1`. -/
theorem applyForce_twice_ne_doubled :
    ((fastBall.applyForce 0 (-70/3)).applyForce 0 (-70/3)).vy
      ≠ (fastBall.applyForce 0 (-140/3)).vy := by
  have e1 : (fastBall.vx + 0 * Ball.acceleration) * (fastBall.vx + 0 * Ball.acceleration)
      + (fastBall.vy + (-70/3) * Ball.acceleration) * (fastBall.vy + (-70/3) * Ball.acceleration)
      = 10 ^ 2 := by norm_num [fastBall, Ball.acceleration]
  have h1 : Ball.maxSpeed < Real.sqrt ((fastBall.vx + 0 * Ball.acceleration)
      * (fastBall.vx + 0 * Ball.acceleration)
      + (fastBall.vy + (-70/3) * Ball.acceleration)
      * (fastBall.vy + (-70/3) * Ball.acceleration)) := by
    rw [e1, Real.sqrt_sq (by norm_num : (0:ℝ) ≤ 10)]
    norm_num [Ball.maxSpeed]
  have hA : fastBall.applyForce 0 (-70/3)
      = (⟨0, 0, 24/5, 32/5, 12, ⟨12, 388, 12, 188⟩, false⟩ : Ball) := by
    rw [applyForce_of_speed_gt fastBall 0 (-70/3) h1, e1,
      Real.sqrt_sq (by norm_num : (0:ℝ) ≤ 10)]
    norm_num [fastBall, Ball.acceleration, Ball.maxSpeed]
  have e2 : ((24/5 : ℝ) + 0 * Ball.acceleration) * (24/5 + 0 * Ball.acceleration)
      + (32/5 + (-70/3) * Ball.acceleration) * (32/5 + (-70/3) * Ball.acceleration)
      = 585/25 := by norm_num [Ball.acceleration]
  have hle2 : Real.sqrt (((⟨0, 0, 24/5, 32/5, 12, ⟨12, 388, 12, 188⟩, false⟩ : Ball).vx
        + 0 * Ball.acceleration)
      * ((⟨0, 0, 24/5, 32/5, 12, ⟨12, 388, 12, 188⟩, false⟩ : Ball).vx + 0 * Ball.acceleration)
      + ((⟨0, 0, 24/5, 32/5, 12, ⟨12, 388, 12, 188⟩, false⟩ : Ball).vy
          + (-70/3) * Ball.acceleration)
      * ((⟨0, 0, 24/5, 32/5, 12, ⟨12, 388, 12, 188⟩, false⟩ : Ball).vy
          + (-70/3) * Ball.acceleration)) ≤ Ball.maxSpeed := by
    show Real.sqrt ((24/5 + 0 * Ball.acceleration) * (24/5 + 0 * Ball.acceleration)
      + (32/5 + (-70/3) * Ball.acceleration) * (32/5 + (-70/3) * Ball.acceleration))
        ≤ Ball.maxSpeed
    rw [e2]
    calc Real.sqrt (585/25) ≤ Real.sqrt (8 ^ 2) := Real.sqrt_le_sqrt (by norm_num)
      _ = 8 := Real.sqrt_sq (by norm_num)
      _ = Ball.maxSpeed := by norm_num [Ball.maxSpeed]
  have e3 : (fastBall.vx + 0 * Ball.acceleration) * (fastBall.vx + 0 * Ball.acceleration)
      + (fastBall.vy + (-140/3) * Ball.acceleration)
      * (fastBall.vy + (-140/3) * Ball.acceleration) = 37 := by
    norm_num [fastBall, Ball.acceleration]
  have hle3 : Real.sqrt ((fastBall.vx + 0 * Ball.acceleration)
      * (fastBall.vx + 0 * Ball.acceleration)
      + (fastBall.vy + (-140/3) * Ball.acceleration)
      * (fastBall.vy + (-140/3) * Ball.acceleration)) ≤ Ball.maxSpeed := by
    rw [e3]
    calc Real.sqrt 37 ≤ Real.sqrt (8 ^ 2) := Real.sqrt_le_sqrt (by norm_num)
      _ = 8 := Real.sqrt_sq (by norm_num)
      _ = Ball.maxSpeed := by norm_num [Ball.maxSpeed]
  rw [hA, applyForce_of_speed_le _ 0 (-70/3) hle2,
    applyForce_of_speed_le fastBall 0 (-140/3) hle3]
  show (32/5 : ℝ) + (-70/3) * Ball.acceleration ≠ fastBall.vy + (-140/3) * Ball.acceleration
  norm_num [fastBall, Ball.acceleration]

/-! ### Goal collision and the engine running state -/

/-- C3 (amended): no tick changes the engine's running state — in particular
the tick that fires `goalReached` leaves it running; `stop()` (invoked by
the external `goalReached` listener, not by the engine) clears the flag, and
a stopped engine's tick does nothing and fires nothing until `start()` runs
again. -/
theorem tick_preserves_running_stop_required (e : Engine) (t : ℝ) :
    ((e.tick t).1.isRunning = e.isRunning)
    ∧ ((e.stop).isRunning = false)
    ∧ (e.isRunning = false → e.tick t = (e, false)) := by
  obtain ⟨run, gx, gy, ball, goal, obs⟩ := e
  cases run <;> cases ball <;> cases goal <;>
    simp [Engine.tick, Engine.checkCollisions, Engine.stop]

/-- Witness for the amended C3: a stopped engine's tick is inert. -/
theorem tick_preserves_running_stop_required_witness :
    stoppedEngine.tick 0 = (stoppedEngine, false) :=
  (tick_preserves_running_stop_required stoppedEngine 0).2.2 rfl

/-- Counterexample to C3 as stated: on the tick that detects the goal
collision and fires `goalReached`, the engine's running state stays `true` —
the engine does not stop its own ticking. -/
theorem tick_goal_reached_still_running :
    (goalEngine.tick 0).2 = true ∧ (goalEngine.tick 0).1.isRunning = true := by
  have happ : goalBall.applyForce 0 0 = goalBall := by
    have e : (goalBall.vx + 0 * Ball.acceleration) * (goalBall.vx + 0 * Ball.acceleration)
        + (goalBall.vy + 0 * Ball.acceleration) * (goalBall.vy + 0 * Ball.acceleration)
        = 0 := by norm_num [goalBall, Ball.acceleration]
    rw [applyForce_of_speed_le goalBall 0 0
      (by rw [e, Real.sqrt_zero]; norm_num [Ball.maxSpeed])]
    norm_num [goalBall, Ball.acceleration, Ball.mk.injEq]
  have hcb := checkBoundary_of_no_violation
    ⟨goalBall.x + goalBall.vx * Ball.friction, goalBall.y + goalBall.vy * Ball.friction,
      goalBall.vx * Ball.friction, goalBall.vy * Ball.friction, goalBall.radius,
      goalBall.bounds, goalBall.isColliding⟩
    (by norm_num [goalBall, Ball.friction]) (by norm_num [goalBall, Ball.friction])
    (by norm_num [goalBall, Ball.friction]) (by norm_num [goalBall, Ball.friction])
  have hu : goalBall.update = (goalBall, false) := by
    simp only [Ball.update, hcb]
    norm_num [goalBall, Ball.friction, Prod.ext_iff, Ball.mk.injEq]
  have hgoal : (goalBall.checkGoalCollision centerGoal).1 = true := by
    norm_num [Ball.checkGoalCollision, goalBall, centerGoal, Real.sqrt_zero]
  simp [Engine.tick, goalEngine, Engine.checkCollisions, happ, hu, hgoal]

end TiltRunner
